import Mathlib

/-!
Verification of the order / payment / refund workflow of the Viwisteria
e-commerce backend (Express + MySQL).

The relational store (tables from `src/database/schema.sql`) is embedded as a
`Store` record of row lists; each controller of
`src/controllers/orderController.js`, `src/controllers/transactionController.js`
and the cart controller becomes a Lean function from a `Store` and the request
parameters to `Except ErrResp (...)`.  Every `return res.status(c).json(...)`
early exit of a controller becomes an `Except.error ⟨c, message⟩` with the
literal status code and message of the source.  Values the source generates
nondeterministically (auto-increment row ids, `Date.now()`-based order /
transaction numbers) are passed in as explicit parameters.  Timestamp columns,
the opaque `payment_details` JSON payload and `card_last4` are not modelled:
no workflow ever reads them back.  `DECIMAL(10,2)` money amounts and `INT`
quantities are modelled as `Int` (exact arithmetic).
-/

namespace Viwisteria

/-- A product row (`products` table, schema.sql:46-57). -/
structure Product where
  id : Nat
  name : String
  price : Int
  stock : Int
deriving Repr, DecidableEq

/-- Shipping columns of an order row (schema.sql:66-70), grouped. -/
structure ShippingInfo where
  name : String
  email : String
  address : String
  city : String
  zip : String
deriving Repr, DecidableEq

/-- An order row (`orders` table, schema.sql:60-74).  `status` defaults to
`"pending"` (schema.sql:65); `createOrder` never supplies it. -/
structure Order where
  id : Nat
  userId : Nat
  orderNumber : String
  totalAmount : Int
  status : String
  shipping : ShippingInfo
deriving Repr, DecidableEq

/-- An order line item row (`order_items` table, schema.sql:77-86). -/
structure OrderItem where
  orderId : Nat
  productId : Nat
  quantity : Int
  price : Int
deriving Repr, DecidableEq

/-- A payment transaction row (`transactions` table, schema.sql:89-101). -/
structure Txn where
  id : Nat
  orderId : Nat
  transactionId : String
  amount : Int
  paymentMethod : String
  status : String
deriving Repr, DecidableEq

/-- An order status history row (`order_status_history`, schema.sql:104-111).
The table is append-only; list order is insertion (`created_at`) order, so the
most recent entry for an order is the last matching element. -/
structure HistoryEntry where
  orderId : Nat
  status : String
  notes : String
deriving Repr, DecidableEq

/-- A cart row (`carts` table, schema.sql:114-121). -/
structure Cart where
  id : Nat
  userId : Nat
deriving Repr, DecidableEq

/-- A cart item row (`cart_items` table, schema.sql:124-134). -/
structure CartItem where
  id : Nat
  cartId : Nat
  productId : Nat
  quantity : Int
deriving Repr, DecidableEq

/-- The relational store: one list of rows per table the core workflows touch. -/
structure Store where
  products : List Product
  orders : List Order
  orderItems : List OrderItem
  transactions : List Txn
  statusHistory : List HistoryEntry
  carts : List Cart
  cartItems : List CartItem
deriving Repr, DecidableEq

/-- An error response: the HTTP status code and message of a
`res.status(code).json({ message })` early return. -/
structure ErrResp where
  status : Nat
  message : String
deriving Repr, DecidableEq

deriving instance DecidableEq for Except

/-- One element of `req.body.items` in `createOrder`
(src/controllers/orderController.js:14,21-31,64-75): a caller-supplied
(product id, quantity, unit price) line. -/
structure OrderLine where
  id : Nat
  quantity : Int
  price : Int
deriving Repr, DecidableEq

/-- JavaScript `x || d` for an optional string: `undefined` and the empty
string are falsy. -/
def jsOrS (v : Option String) (d : String) : String :=
  match v with
  | some x => if x = "" then d else x
  | none => d

/-- JavaScript `amount || 'Full amount'` for the optional refund amount:
`undefined` and `0` are falsy. -/
def amountText (a : Option Int) : String :=
  match a with
  | some x => if x = 0 then "Full amount" else toString x
  | none => "Full amount"

/-- `SELECT * FROM products WHERE id = ?` (first matching row). -/
def findProduct (s : Store) (pid : Nat) : Option Product :=
  s.products.find? (fun p => p.id == pid)

/-- `UPDATE products SET stock = stock - ? WHERE id = ?`
(orderController.js:71-74). -/
def subtractStock (ps : List Product) (pid : Nat) (q : Int) : List Product :=
  ps.map fun p => if p.id = pid then { p with stock := p.stock - q } else p

/-- `UPDATE products SET stock = stock + ? WHERE id = ?`
(orderController.js:266-269, transactionController.js:223-226). -/
def addStock (ps : List Product) (pid : Nat) (q : Int) : List Product :=
  ps.map fun p => if p.id = pid then { p with stock := p.stock + q } else p

/-- `UPDATE orders SET status = ? WHERE id = ?`. -/
def setOrderStatus (s : Store) (oid : Nat) (st : String) : Store :=
  { s with orders := s.orders.map fun o => if o.id = oid then { o with status := st } else o }

/-- `INSERT INTO order_status_history (order_id, status, notes) VALUES (?, ?, ?)`. -/
def appendHistory (s : Store) (oid : Nat) (st notes : String) : Store :=
  { s with statusHistory := s.statusHistory ++ [⟨oid, st, notes⟩] }

/-- The status history rows of one order, in insertion order. -/
def historyFor (s : Store) (oid : Nat) : List HistoryEntry :=
  s.statusHistory.filter (fun h => h.orderId == oid)

/-- `SELECT product_id, quantity FROM order_items WHERE order_id = ?`
(orderController.js:260-263, transactionController.js:217-220). -/
def orderItemsOf (s : Store) (oid : Nat) : List OrderItem :=
  s.orderItems.filter (fun it => it.orderId == oid)

/-- The stock of the product with id `pid`, `none` if no such row. -/
def stockIn (ps : List Product) (pid : Nat) : Option Int :=
  (ps.find? (fun p => p.id == pid)).map (fun p => p.stock)

/-- The stock of product `pid` in the store. -/
def stockOf (s : Store) (pid : Nat) : Option Int :=
  stockIn s.products pid

/-- Total quantity the request lines order for product `pid`. -/
def lineQty (items : List OrderLine) (pid : Nat) : Int :=
  ((items.filter (fun it => it.id == pid)).map (fun it => it.quantity)).sum

/-- Total quantity the given order item rows carry for product `pid`. -/
def itemQty (its : List OrderItem) (pid : Nat) : Int :=
  ((its.filter (fun it => it.productId == pid)).map (fun it => it.quantity)).sum

/-- The per-item stock restore loop shared by the `"cancelled"` branch of
`updateOrderStatus` (orderController.js:265-270) and by `processRefund`
(transactionController.js:222-227): one `stock = stock + quantity` update per
order item row. -/
def cancelRestock (its : List OrderItem) (s : Store) : Store :=
  its.foldl (fun acc it => { acc with products := addStock acc.products it.productId it.quantity }) s

/-- Step 5 of `createOrder` (orderController.js:103-114): look up the caller's
cart and delete its cart items; no-op when the user has no cart row. -/
def clearUserCart (s : Store) (userId : Nat) : Store :=
  match s.carts.find? (fun c => c.userId == userId) with
  | some c => { s with cartItems := s.cartItems.filter (fun ci => ci.cartId != c.id) }
  | none => s

/-- The per-line body of steps 2 of `createOrder` (orderController.js:64-75):
insert the order item snapshot, then decrement the product's stock. -/
def checkoutStep (noid : Nat) (acc : Store) (it : OrderLine) : Store :=
  { acc with
      orderItems := acc.orderItems ++ [⟨noid, it.id, it.quantity, it.price⟩],
      products := subtractStock acc.products it.id it.quantity }

/-- The store observable after a call that ran inside `beginTransaction` /
`commit` / `rollback` (orderController.js:10,116,125;
transactionController.js:93,151,160,173,229,237): the new store on success,
the unchanged input store on any error — every error return of these
controllers happens before their first write, and a thrown error rolls the
transaction back. -/
def observable (s : Store) (r : Except ErrResp Store) : Store :=
  match r with
  | .ok t => t
  | .error _ => s

/-- `createOrder` (src/controllers/orderController.js:7-130).
`newOrderId` and `newTxnRowId` stand for the auto-increment ids of the
inserted `orders` / `transactions` rows, `orderNumber` / `transactionId` for
the `Date.now()`+random identifiers generated at lines 34-36 and 78-80. -/
def createOrder (s : Store) (userId : Nat) (items : List OrderLine)
    (shippingInfo : ShippingInfo) (paymentMethod : String)
    (newOrderId : Nat) (orderNumber : String)
    (newTxnRowId : Nat) (transactionId : String) :
    Except ErrResp (Store × Nat × String × String) :=
  if userId = 0 then
    .error ⟨401, "User not authenticated"⟩
  else
    match items.find? (fun it => (findProduct s it.id).isNone) with
    | some it => .error ⟨400, "Product with ID " ++ toString it.id ++ " not found"⟩
    | none =>
      let totalAmount : Int := items.foldl (fun sum it => sum + it.price * it.quantity) 0
      let s1 : Store :=
        { s with orders := s.orders ++
            [⟨newOrderId, userId, orderNumber, totalAmount, "pending", shippingInfo⟩] }
      let s2 : Store := items.foldl (checkoutStep newOrderId) s1
      let s3 : Store :=
        { s2 with transactions := s2.transactions ++
            [⟨newTxnRowId, newOrderId, transactionId, totalAmount, paymentMethod, "completed"⟩] }
      let s4 : Store := appendHistory s3 newOrderId "pending" "Order created and payment received"
      let s5 : Store := clearUserCart s4 userId
      .ok (s5, newOrderId, orderNumber, transactionId)

/-- Success-path body of `updateOrderStatus`
(src/controllers/orderController.js:246-271): update the order's status,
append the history row (notes defaulted as at line 255), and, when the target
status is `"cancelled"`, restore each order item's quantity to its product's
stock.  The `SELECT ... FROM order_items` at lines 260-263 runs after the two
preceding writes, which do not touch `order_items`. -/
def updateOrderStatusBody (s : Store) (oid : Nat) (st : String) (notes : Option String) : Store :=
  let s1 := setOrderStatus s oid st
  let s2 := appendHistory s1 oid st (jsOrS notes ("Status updated to " ++ st))
  if st = "cancelled" then cancelRestock (orderItemsOf s2 oid) s2 else s2

/-- `updateOrderStatus` (src/controllers/orderController.js:228-285). -/
def updateOrderStatus (s : Store) (oid : Nat) (st : String) (notes : Option String) :
    Except ErrResp Store :=
  if (s.orders.find? (fun o => o.id == oid)).isNone then
    .error ⟨404, "Order not found"⟩
  else
    .ok (updateOrderStatusBody s oid st notes)

/-- Intermediate stores of the stock-restore loop, one per executed
`UPDATE products` statement. -/
def restockStates (its : List OrderItem) (s : Store) : List Store :=
  match its with
  | [] => []
  | it :: rest =>
    let s' := { s with products := addStock s.products it.productId it.quantity }
    s' :: restockStates rest s'

/-- The sequence of stores durable after each successive write statement of
`updateOrderStatus`.  Unlike `createOrder`, `processPayment` and
`processRefund`, `updateOrderStatus` never calls `connection.beginTransaction()`
(contrast orderController.js:10 with lines 229-285), so the connection runs in
MySQL autocommit: each statement is committed the moment it completes, the
`connection.commit()` at line 273 is redundant and the `connection.rollback()`
in the catch block (line 280) has no open transaction to undo.  If execution
throws during write k+1, the observable store is therefore element k-1 of this
list (the state after the k already-committed writes), not the initial store. -/
def updateOrderStatusWriteStates (s : Store) (oid : Nat) (st : String)
    (notes : Option String) : List Store :=
  let s1 := setOrderStatus s oid st
  let s2 := appendHistory s1 oid st (jsOrS notes ("Status updated to " ++ st))
  [s1, s2] ++ (if st = "cancelled" then restockStates (orderItemsOf s2 oid) s2 else [])

/-- `processPayment` (src/controllers/transactionController.js:90-165).
`newTxnRowId` is the inserted row's auto-increment id, `transactionId` the
generated identifier of line 125. -/
def processPayment (s : Store) (userId : Nat) (oid : Nat) (paymentMethod : String)
    (newTxnRowId : Nat) (transactionId : String) :
    Except ErrResp (Store × String) :=
  match s.orders.find? (fun o => o.id == oid && o.userId == userId) with
  | none => .error ⟨404, "Order not found"⟩
  | some o =>
    if 0 < (s.transactions.filter (fun t => t.orderId == oid)).length then
      .error ⟨400, "Payment already processed for this order"⟩
    else
      let s1 : Store :=
        { s with transactions := s.transactions ++
            [⟨newTxnRowId, oid, transactionId, o.totalAmount, paymentMethod, "completed"⟩] }
      let s2 := setOrderStatus s1 oid "processing"
      let s3 := appendHistory s2 oid "processing" "Payment received and order is being processed"
      .ok (s3, transactionId)

/-- `processRefund` (src/controllers/transactionController.js:170-242).
`txnRowId` is `req.params.id`, the `transactions` primary key.  The
`order_items` read at lines 217-220 runs after the three preceding writes,
none of which touches `order_items`. -/
def processRefund (s : Store) (txnRowId : Nat) (amount : Option Int) (reason : Option String) :
    Except ErrResp Store :=
  match s.transactions.find? (fun t => t.id == txnRowId) with
  | none => .error ⟨404, "Transaction not found"⟩
  | some t =>
    if t.status = "refunded" then
      .error ⟨400, "This transaction has already been refunded"⟩
    else
      let markRefunded : Txn → Txn :=
        fun tr => if tr.id = txnRowId then { tr with status := "refunded" } else tr
      let s1 : Store := { s with transactions := s.transactions.map markRefunded }
      let s2 := setOrderStatus s1 t.orderId "refunded"
      let s3 := appendHistory s2 t.orderId "refunded"
        ("Refund processed: " ++ jsOrS reason "No reason provided" ++ ". Amount: " ++ amountText amount)
      let s4 := cancelRestock (orderItemsOf s3 t.orderId) s3
      .ok s4

/-- `addToCart` (cart controller, src/unnamed/part_000:66-160).  `newCartId` /
`newItemId` stand for the auto-increment ids of a lazily created cart row and
of a newly inserted cart item row. -/
def addToCart (s : Store) (userId : Nat) (productId : Nat) (quantity : Int)
    (newCartId : Nat) (newItemId : Nat) :
    Except ErrResp Store :=
  if productId = 0 || quantity < 1 then
    .error ⟨400, "Product ID and valid quantity are required"⟩
  else
    match findProduct s productId with
    | none => .error ⟨404, "Product not found"⟩
    | some product =>
      if product.stock < quantity then
        .error ⟨400, "Only " ++ toString product.stock ++ " items available in stock"⟩
      else
        let cs : Cart × Store :=
          match s.carts.find? (fun c => c.userId == userId) with
          | some c => (c, s)
          | none => (⟨newCartId, userId⟩, { s with carts := s.carts ++ [⟨newCartId, userId⟩] })
        match cs.2.cartItems.find? (fun ci => ci.cartId == cs.1.id && ci.productId == productId) with
        | some existing =>
          let newQuantity := existing.quantity + quantity
          if product.stock < newQuantity then
            .error ⟨400, "Only " ++ toString (product.stock - existing.quantity) ++
              " more items available in stock"⟩
          else
            let bump : CartItem → CartItem :=
              fun ci => if ci.id = existing.id then { ci with quantity := newQuantity } else ci
            .ok { cs.2 with cartItems := cs.2.cartItems.map bump }
        | none =>
          .ok { cs.2 with cartItems := cs.2.cartItems ++ [⟨newItemId, cs.1.id, productId, quantity⟩] }

/-- `orders.status` column vocabulary (schema.sql:65). -/
def ordersStatusEnum : List String :=
  ["pending", "processing", "shipped", "delivered", "cancelled"]

/-- `order_status_history.status` column vocabulary (schema.sql:107). -/
def historyStatusEnum : List String :=
  ["pending", "processing", "shipped", "delivered", "cancelled"]

/-- `transactions.status` column vocabulary (schema.sql:96). -/
def txnStatusEnum : List String :=
  ["pending", "completed", "failed", "refunded"]

/-- The store satisfies the `ENUM` column constraints of schema.sql. -/
def storeSchemaValid (s : Store) : Prop :=
  (∀ o ∈ s.orders, o.status ∈ ordersStatusEnum) ∧
  (∀ h ∈ s.statusHistory, h.status ∈ historyStatusEnum) ∧
  (∀ t ∈ s.transactions, t.status ∈ txnStatusEnum)

/-- The most recent status history entry of order `oid`. -/
def lastStatus (s : Store) (oid : Nat) : Option String :=
  ((historyFor s oid).getLast?).map (fun h => h.status)

/-- Every order's own `status` column agrees with the status of the most
recent `order_status_history` row for that order. -/
def statusConsistent (s : Store) : Prop :=
  ∀ o ∈ s.orders, lastStatus s o.id = some o.status

/-! ### Projection lemmas for the primitive writes -/

@[simp] theorem setOrderStatus_products (s : Store) (oid : Nat) (st : String) :
    (setOrderStatus s oid st).products = s.products := rfl

@[simp] theorem setOrderStatus_orderItems (s : Store) (oid : Nat) (st : String) :
    (setOrderStatus s oid st).orderItems = s.orderItems := rfl

@[simp] theorem setOrderStatus_statusHistory (s : Store) (oid : Nat) (st : String) :
    (setOrderStatus s oid st).statusHistory = s.statusHistory := rfl

@[simp] theorem setOrderStatus_transactions (s : Store) (oid : Nat) (st : String) :
    (setOrderStatus s oid st).transactions = s.transactions := rfl

@[simp] theorem setOrderStatus_orders (s : Store) (oid : Nat) (st : String) :
    (setOrderStatus s oid st).orders =
      s.orders.map (fun o => if o.id = oid then { o with status := st } else o) := rfl

@[simp] theorem appendHistory_products (s : Store) (oid : Nat) (st n : String) :
    (appendHistory s oid st n).products = s.products := rfl

@[simp] theorem appendHistory_orders (s : Store) (oid : Nat) (st n : String) :
    (appendHistory s oid st n).orders = s.orders := rfl

@[simp] theorem appendHistory_orderItems (s : Store) (oid : Nat) (st n : String) :
    (appendHistory s oid st n).orderItems = s.orderItems := rfl

@[simp] theorem appendHistory_transactions (s : Store) (oid : Nat) (st n : String) :
    (appendHistory s oid st n).transactions = s.transactions := rfl

@[simp] theorem appendHistory_statusHistory (s : Store) (oid : Nat) (st n : String) :
    (appendHistory s oid st n).statusHistory = s.statusHistory ++ [⟨oid, st, n⟩] := rfl

@[simp] theorem clearUserCart_products (s : Store) (u : Nat) :
    (clearUserCart s u).products = s.products := by
  unfold clearUserCart; split <;> rfl

@[simp] theorem clearUserCart_orders (s : Store) (u : Nat) :
    (clearUserCart s u).orders = s.orders := by
  unfold clearUserCart; split <;> rfl

@[simp] theorem clearUserCart_orderItems (s : Store) (u : Nat) :
    (clearUserCart s u).orderItems = s.orderItems := by
  unfold clearUserCart; split <;> rfl

@[simp] theorem clearUserCart_transactions (s : Store) (u : Nat) :
    (clearUserCart s u).transactions = s.transactions := by
  unfold clearUserCart; split <;> rfl

@[simp] theorem clearUserCart_statusHistory (s : Store) (u : Nat) :
    (clearUserCart s u).statusHistory = s.statusHistory := by
  unfold clearUserCart; split <;> rfl

/-! ### Quantity bookkeeping -/

theorem lineQty_nil (pid : Nat) : lineQty [] pid = 0 := rfl

theorem lineQty_cons (it : OrderLine) (items : List OrderLine) (pid : Nat) :
    lineQty (it :: items) pid =
      (if it.id = pid then it.quantity else 0) + lineQty items pid := by
  by_cases h : it.id = pid <;> simp [lineQty, List.filter_cons, h]

theorem itemQty_nil (pid : Nat) : itemQty [] pid = 0 := rfl

theorem itemQty_cons (it : OrderItem) (its : List OrderItem) (pid : Nat) :
    itemQty (it :: its) pid =
      (if it.productId = pid then it.quantity else 0) + itemQty its pid := by
  by_cases h : it.productId = pid <;> simp [itemQty, List.filter_cons, h]

/-- The quantities the restock loop sees in the order items inserted for the
request lines are exactly the request lines' quantities. -/
theorem itemQty_map_checkout (noid : Nat) (items : List OrderLine) (pid : Nat) :
    itemQty (items.map (fun it => ⟨noid, it.id, it.quantity, it.price⟩)) pid
      = lineQty items pid := by
  simp only [itemQty, lineQty, List.filter_map, List.map_map]
  rfl

/-! ### Stock fold characterizations -/

theorem subtract_then_adjust (it : OrderLine) (rest : List OrderLine) (ps : List Product) :
    (subtractStock ps it.id it.quantity).map
        (fun p => { p with stock := p.stock - lineQty rest p.id })
      = ps.map (fun p => { p with stock := p.stock - lineQty (it :: rest) p.id }) := by
  rw [subtractStock, List.map_map]
  apply List.map_congr_left
  intro p _
  obtain ⟨pid, pname, pprice, pstock⟩ := p
  by_cases h : pid = it.id <;>
    simp [Function.comp, h, lineQty_cons, Product.mk.injEq] <;> omega

/-- `createOrder`'s per-line loop, characterized: it appends one order item
snapshot per line and lowers every product's stock by the total quantity the
lines order for it. -/
theorem checkoutFold_eq (noid : Nat) (items : List OrderLine) :
    ∀ s : Store,
      items.foldl (checkoutStep noid) s =
        { s with
            orderItems := s.orderItems ++
              items.map (fun it => ⟨noid, it.id, it.quantity, it.price⟩),
            products := s.products.map
              (fun p => { p with stock := p.stock - lineQty items p.id }) } := by
  induction items with
  | nil =>
    intro s
    simp [lineQty]
  | cons it rest ih =>
    intro s
    rw [List.foldl_cons, ih]
    obtain ⟨ps, os, oi, ts, hs, cs, ci⟩ := s
    simp [checkoutStep, subtract_then_adjust]

theorem add_then_adjust (it : OrderItem) (rest : List OrderItem) (ps : List Product) :
    (addStock ps it.productId it.quantity).map
        (fun p => { p with stock := p.stock + itemQty rest p.id })
      = ps.map (fun p => { p with stock := p.stock + itemQty (it :: rest) p.id }) := by
  rw [addStock, List.map_map]
  apply List.map_congr_left
  intro p _
  obtain ⟨pid, pname, pprice, pstock⟩ := p
  by_cases h : pid = it.productId <;>
    simp [Function.comp, h, itemQty_cons, Product.mk.injEq] <;> omega

/-- The restock loop, characterized: it raises every product's stock by the
total quantity the given order items carry for it, and changes nothing else. -/
theorem cancelRestock_eq (its : List OrderItem) :
    ∀ s : Store,
      cancelRestock its s =
        { s with products := s.products.map
                  (fun p => { p with stock := p.stock + itemQty its p.id }) } := by
  induction its with
  | nil =>
    intro s
    simp [cancelRestock, itemQty]
  | cons it rest ih =>
    intro s
    rw [cancelRestock, List.foldl_cons]
    have := ih { s with products := addStock s.products it.productId it.quantity }
    rw [cancelRestock] at this
    rw [this]
    obtain ⟨ps, os, oi, ts, hs, cs, ci⟩ := s
    simp [add_then_adjust]

/-- Reading one product's stock through a stock-adjusting map. -/
theorem stockIn_map_adjust (g : Nat → Int → Int) (ps : List Product) (x : Nat) :
    stockIn (ps.map (fun p => { p with stock := g p.id p.stock })) x
      = (stockIn ps x).map (fun v => g x v) := by
  induction ps with
  | nil => simp [stockIn]
  | cons p rest ih =>
    by_cases h : p.id = x
    · simp [stockIn, List.find?_cons, h]
    · simpa [stockIn, List.find?_cons, h] using ih

/-- The `reduce` of orderController.js:37-40, characterized. -/
theorem foldl_price_mul (items : List OrderLine) :
    ∀ a : Int, items.foldl (fun sum it => sum + it.price * it.quantity) a
      = a + (items.map (fun it => it.price * it.quantity)).sum := by
  induction items with
  | nil => intro a; simp
  | cons it rest ih =>
    intro a
    rw [List.foldl_cons, ih, List.map_cons, List.sum_cons]
    ring

/-! ### Success-path characterizations of the controllers -/

/-- A successful `createOrder` returns the fresh ids, implies every line's
product existed, and produces exactly: the appended order header with the
summed total, one order item per line, the per-product stock decrement, the
`"completed"` transaction, the `"pending"` history row, and the cleared cart. -/
theorem createOrder_ok_spec
    {s : Store} {userId : Nat} {items : List OrderLine} {ship : ShippingInfo}
    {pm : String} {noid : Nat} {onum : String} {ntid : Nat} {tidStr : String}
    {s' : Store} {oid : Nat} {onum' tid' : String}
    (h : createOrder s userId items ship pm noid onum ntid tidStr
          = .ok (s', oid, onum', tid')) :
    userId ≠ 0 ∧ oid = noid ∧ onum' = onum ∧ tid' = tidStr ∧
    (∀ it ∈ items, (findProduct s it.id).isSome = true) ∧
    s' = clearUserCart
      { s with
          orders := s.orders ++ [⟨noid, userId, onum,
            (items.map (fun it => it.price * it.quantity)).sum, "pending", ship⟩],
          orderItems := s.orderItems ++
            items.map (fun it => ⟨noid, it.id, it.quantity, it.price⟩),
          products := s.products.map
            (fun p => { p with stock := p.stock - lineQty items p.id }),
          transactions := s.transactions ++ [⟨ntid, noid, tidStr,
            (items.map (fun it => it.price * it.quantity)).sum, pm, "completed"⟩],
          statusHistory := s.statusHistory ++
            [⟨noid, "pending", "Order created and payment received"⟩] } userId := by
  unfold createOrder at h
  split at h
  · simp at h
  · next hu =>
    split at h
    · simp at h
    · next hfind =>
      simp only [Except.ok.injEq, Prod.mk.injEq] at h
      obtain ⟨h1, h2, h3, h4⟩ := h
      refine ⟨hu, h2.symm, h3.symm, h4.symm, ?_, ?_⟩
      · intro it hit
        have := List.find?_eq_none.mp hfind it hit
        simpa [Option.isNone_iff_eq_none, Option.isSome_iff_ne_none] using this
      · rw [← h1, checkoutFold_eq, foldl_price_mul]
        obtain ⟨ps, os, oi, ts, hs, cs, ci⟩ := s
        simp [appendHistory]

/-- A successful `updateOrderStatus` implies the order was found and the
result is the success-path body. -/
theorem updateOrderStatus_ok_spec {s s' : Store} {oid : Nat} {st : String}
    {notes : Option String}
    (h : updateOrderStatus s oid st notes = .ok s') :
    (s.orders.find? (fun o => o.id == oid)).isSome = true ∧
    s' = updateOrderStatusBody s oid st notes := by
  unfold updateOrderStatus at h
  split at h
  · simp at h
  · next hc =>
    refine ⟨?_, by injection h with h; exact h.symm⟩
    simpa [Option.isNone_iff_eq_none, Option.isSome_iff_ne_none] using hc

/-- A successful `processPayment` implies the order was found with no prior
transaction, and produces exactly: the appended `"completed"` transaction with
the order's own `total_amount`, the `"processing"` status, and its history row. -/
theorem processPayment_ok_spec {s : Store} {userId oid : Nat} {pm : String}
    {ntid : Nat} {tidStr : String} {s' : Store} {tidOut : String}
    (h : processPayment s userId oid pm ntid tidStr = .ok (s', tidOut)) :
    ∃ o, s.orders.find? (fun o => o.id == oid && o.userId == userId) = some o ∧
      (s.transactions.filter (fun t => t.orderId == oid)).length = 0 ∧
      tidOut = tidStr ∧
      s' = appendHistory (setOrderStatus
            { s with transactions := s.transactions ++
                [⟨ntid, oid, tidStr, o.totalAmount, pm, "completed"⟩] } oid "processing")
            oid "processing" "Payment received and order is being processed" := by
  unfold processPayment at h
  split at h
  · simp at h
  · next o ho =>
    split at h
    · simp at h
    · next hlen =>
      simp only [Except.ok.injEq, Prod.mk.injEq] at h
      exact ⟨o, ho, by omega, h.2.symm, h.1.symm⟩

/-- A successful `processRefund` implies the transaction was found not yet
refunded, and produces exactly: the transaction marked `"refunded"`, the
owning order's status set to `"refunded"`, the history row, and the
per-product stock restore over the order's items. -/
theorem processRefund_ok_spec {s : Store} {tid : Nat} {amount : Option Int}
    {reason : Option String} {s' : Store}
    (h : processRefund s tid amount reason = .ok s') :
    ∃ t, s.transactions.find? (fun tr => tr.id == tid) = some t ∧
      t.status ≠ "refunded" ∧
      s' = cancelRestock (orderItemsOf s t.orderId)
            (appendHistory (setOrderStatus
              { s with transactions := s.transactions.map
                          (fun tr => if tr.id = tid then { tr with status := "refunded" } else tr) }
              t.orderId "refunded")
              t.orderId "refunded"
              ("Refund processed: " ++ jsOrS reason "No reason provided" ++
                ". Amount: " ++ amountText amount)) := by
  unfold processRefund at h
  split at h
  · simp at h
  · next t ht =>
    split at h
    · simp at h
    · next hst =>
      injection h with h
      exact ⟨t, ht, hst, h.symm⟩

/-! ### Most-recent-status lemmas -/

theorem lastStatus_append_self (s : Store) (oid : Nat) (st n : String) :
    lastStatus (appendHistory s oid st n) oid = some st := by
  simp [lastStatus, historyFor, appendHistory, List.filter_append]

theorem lastStatus_append_ne (s : Store) (oid x : Nat) (st n : String) (h : x ≠ oid) :
    lastStatus (appendHistory s oid st n) x = lastStatus s x := by
  simp [lastStatus, historyFor, appendHistory, List.filter_append, Ne.symm h]

/-- `statusConsistent` only looks at the `orders` and `order_status_history`
tables. -/
theorem statusConsistent_of_fields {s₁ s₂ : Store}
    (ho : s₁.orders = s₂.orders) (hh : s₁.statusHistory = s₂.statusHistory)
    (h : statusConsistent s₂) : statusConsistent s₁ := by
  intro o hmem
  have hls : lastStatus s₁ o.id = lastStatus s₂ o.id := by
    simp [lastStatus, historyFor, hh]
  rw [hls]
  exact h o (ho ▸ hmem)

/-- The lock-step write pair — set the order's status, append the matching
history row — preserves the agreement between both status representations. -/
theorem statusConsistent_set_append {s : Store} (oid : Nat) (st n : String)
    (hs : statusConsistent s) :
    statusConsistent (appendHistory (setOrderStatus s oid st) oid st n) := by
  intro o ho
  rw [appendHistory_orders, setOrderStatus_orders] at ho
  obtain ⟨o0, ho0, rfl⟩ := List.mem_map.mp ho
  by_cases h : o0.id = oid
  · simp [h, lastStatus_append_self]
  · have hid : (if o0.id = oid then { o0 with status := st } else o0) = o0 := by simp [h]
    rw [hid, lastStatus_append_ne _ _ _ _ _ h]
    have hls : lastStatus (setOrderStatus s oid st) o0.id = lastStatus s o0.id := by
      simp [lastStatus, historyFor]
    rw [hls]
    exact hs o0 ho0

/-! ### Further characterizations -/

instance (s : Store) : Decidable (statusConsistent s) := by
  unfold statusConsistent; infer_instance

instance (s : Store) : Decidable (storeSchemaValid s) := by
  unfold storeSchemaValid; infer_instance

theorem itemQty_nonneg (its : List OrderItem) (h : ∀ it ∈ its, 0 ≤ it.quantity) (pid : Nat) :
    0 ≤ itemQty its pid := by
  unfold itemQty
  apply List.sum_nonneg
  intro x hx
  obtain ⟨it, hit, rfl⟩ := List.mem_map.mp hx
  exact h it (List.mem_filter.mp hit).1

theorem updateOrderStatusBody_products (s : Store) (oid : Nat) (st : String)
    (notes : Option String) :
    (updateOrderStatusBody s oid st notes).products
      = if st = "cancelled"
        then s.products.map
          (fun p => { p with stock := p.stock + itemQty (orderItemsOf s oid) p.id })
        else s.products := by
  unfold updateOrderStatusBody
  split
  · rw [cancelRestock_eq]; rfl
  · rfl

theorem updateOrderStatusBody_orders (s : Store) (oid : Nat) (st : String)
    (notes : Option String) :
    (updateOrderStatusBody s oid st notes).orders
      = s.orders.map (fun o => if o.id = oid then { o with status := st } else o) := by
  unfold updateOrderStatusBody
  split
  · rw [cancelRestock_eq]; rfl
  · rfl

theorem updateOrderStatusBody_statusHistory (s : Store) (oid : Nat) (st : String)
    (notes : Option String) :
    (updateOrderStatusBody s oid st notes).statusHistory
      = s.statusHistory ++ [⟨oid, st, jsOrS notes ("Status updated to " ++ st)⟩] := by
  unfold updateOrderStatusBody
  split
  · rw [cancelRestock_eq]; rfl
  · rfl

/-! ### Claim theorems -/

/-- Shipping payload used by the concrete test stores. -/
def demoShip : ShippingInfo := ⟨"n", "e", "a", "c", "z"⟩

/-- C3: A checkout request with a line whose product id does not exist fails
with BadRequest (HTTP 400, the source's literal message), and the observable
store is unchanged: no order, order item, transaction or history row, no stock
change, and the cart is not cleared.  (The product-existence loop at
orderController.js:21-31 runs before the first write.) -/
theorem createOrder_missing_product_rejected
    (s : Store) (userId : Nat) (items : List OrderLine) (ship : ShippingInfo)
    (pm : String) (noid : Nat) (onum : String) (ntid : Nat) (tidStr : String)
    (hu : userId ≠ 0)
    (hmiss : ∃ it ∈ items, findProduct s it.id = none) :
    (∃ missingId : Nat, createOrder s userId items ship pm noid onum ntid tidStr
        = .error ⟨400, "Product with ID " ++ toString missingId ++ " not found"⟩) ∧
    observable s ((createOrder s userId items ship pm noid onum ntid tidStr).map
        (fun r => r.1)) = s := by
  have hsome : (items.find? (fun it => (findProduct s it.id).isNone)).isSome = true := by
    obtain ⟨it, hit, hnone⟩ := hmiss
    exact List.find?_isSome.mpr ⟨it, hit, by simp [hnone]⟩
  obtain ⟨it0, hfind⟩ := Option.isSome_iff_exists.mp hsome
  constructor
  · refine ⟨it0.id, ?_⟩
    unfold createOrder
    rw [if_neg hu, hfind]
  · unfold createOrder
    rw [if_neg hu, hfind]
    rfl

def C3store : Store := ⟨[], [], [], [], [], [], []⟩

theorem createOrder_missing_product_rejected_witness :
    ((1 : Nat) ≠ 0) ∧
    (∃ it ∈ [(⟨5, 1, 10⟩ : OrderLine)], findProduct C3store it.id = none) ∧
    ((∃ missingId : Nat, createOrder C3store 1 [⟨5, 1, 10⟩] demoShip "card" 1 "ORD-1" 1 "TXN-1"
        = .error ⟨400, "Product with ID " ++ toString missingId ++ " not found"⟩) ∧
      observable C3store ((createOrder C3store 1 [⟨5, 1, 10⟩] demoShip "card" 1 "ORD-1" 1 "TXN-1").map
        (fun r => r.1)) = C3store) :=
  ⟨by decide, by decide,
    createOrder_missing_product_rejected C3store 1 [⟨5, 1, 10⟩] demoShip "card" 1 "ORD-1" 1 "TXN-1"
      (by decide) (by decide)⟩

/-- C4: For every successful checkout, the created order's `total_amount` is
exactly Σ(price × quantity) over the caller-supplied lines, and that also
equals Σ(price × quantity) over the order items inserted for the order (the
prices are snapshotted from the request lines). -/
theorem createOrder_total_amount_correct
    (s : Store) (userId : Nat) (items : List OrderLine) (ship : ShippingInfo)
    (pm : String) (noid : Nat) (onum : String) (ntid : Nat) (tidStr : String)
    (s' : Store) (oid : Nat) (onum' tid' : String)
    (hfresh : ∀ it ∈ s.orderItems, it.orderId ≠ noid)
    (hok : createOrder s userId items ship pm noid onum ntid tidStr
        = .ok (s', oid, onum', tid')) :
    ∃ o ∈ s'.orders, o.id = oid ∧
      o.totalAmount = (items.map (fun it => it.price * it.quantity)).sum ∧
      ((orderItemsOf s' oid).map (fun it => it.price * it.quantity)).sum = o.totalAmount := by
  obtain ⟨-, h2, -, -, -, h6⟩ := createOrder_ok_spec hok
  subst h2 h6
  refine ⟨⟨oid, userId, onum, (items.map (fun it => it.price * it.quantity)).sum,
    "pending", ship⟩, ?_, rfl, rfl, ?_⟩
  · rw [clearUserCart_orders]
    exact List.mem_append_right _ (List.mem_singleton.mpr rfl)
  · unfold orderItemsOf
    rw [clearUserCart_orderItems]
    have hnil : (s.orderItems.filter (fun it => it.orderId == oid)) = [] := by
      rw [List.filter_eq_nil_iff]
      intro it hit
      simpa using hfresh it hit
    have hall : ((items.map (fun it =>
        (⟨oid, it.id, it.quantity, it.price⟩ : OrderItem))).filter
          (fun it => it.orderId == oid))
        = items.map (fun it => (⟨oid, it.id, it.quantity, it.price⟩ : OrderItem)) := by
      rw [List.filter_eq_self]
      intro it hit
      obtain ⟨l, -, rfl⟩ := List.mem_map.mp hit
      simp
    rw [List.filter_append, hnil, hall, List.nil_append, List.map_map]
    rfl

def C4store : Store := ⟨[⟨1, "A", 10, 5⟩], [], [], [], [], [], []⟩

def C4after : Store :=
  ⟨[⟨1, "A", 10, 3⟩],
   [⟨1, 7, "ORD-1", 20, "pending", demoShip⟩],
   [⟨1, 1, 2, 10⟩],
   [⟨1, 1, "TXN-1", 20, "card", "completed"⟩],
   [⟨1, "pending", "Order created and payment received"⟩],
   [], []⟩

theorem createOrder_total_amount_correct_witness :
    (∀ it ∈ C4store.orderItems, it.orderId ≠ 1) ∧
    createOrder C4store 7 [⟨1, 2, 10⟩] demoShip "card" 1 "ORD-1" 1 "TXN-1"
      = .ok (C4after, 1, "ORD-1", "TXN-1") ∧
    (∃ o ∈ C4after.orders, o.id = 1 ∧
      o.totalAmount = ([(⟨1, 2, 10⟩ : OrderLine)].map (fun it => it.price * it.quantity)).sum ∧
      ((orderItemsOf C4after 1).map (fun it => it.price * it.quantity)).sum = o.totalAmount) :=
  ⟨by decide, by rfl,
    createOrder_total_amount_correct C4store 7 [⟨1, 2, 10⟩] demoShip "card" 1 "ORD-1" 1 "TXN-1"
      C4after 1 "ORD-1" "TXN-1" (by decide) (by rfl)⟩

/-- C5: Refunding an already-refunded transaction is rejected — the spec's
Conflict case, surfaced by the source as HTTP 400 with the literal message —
and performs no writes: the observable store is unchanged.  (The status check
at transactionController.js:191-196 runs before the first write.) -/
theorem processRefund_already_refunded_conflict
    (s : Store) (tid : Nat) (amount : Option Int) (reason : Option String) (t : Txn)
    (hfind : s.transactions.find? (fun tr => tr.id == tid) = some t)
    (hst : t.status = "refunded") :
    processRefund s tid amount reason
      = .error ⟨400, "This transaction has already been refunded"⟩ ∧
    observable s (processRefund s tid amount reason) = s := by
  unfold processRefund
  rw [hfind]
  constructor
  · simp [hst]
  · simp [hst, observable]

def C5store : Store :=
  ⟨[⟨1, "A", 10, 3⟩],
   [⟨1, 9, "ORD-1", 20, "refunded", demoShip⟩],
   [⟨1, 1, 2, 10⟩],
   [⟨1, 1, "TXN-1", 20, "card", "refunded"⟩],
   [⟨1, "pending", "n1"⟩, ⟨1, "refunded", "n2"⟩],
   [], []⟩

theorem processRefund_already_refunded_conflict_witness :
    C5store.transactions.find? (fun tr => tr.id == 1)
        = some ⟨1, 1, "TXN-1", 20, "card", "refunded"⟩ ∧
    (⟨1, 1, "TXN-1", 20, "card", "refunded"⟩ : Txn).status = "refunded" ∧
    (processRefund C5store 1 none none
        = .error ⟨400, "This transaction has already been refunded"⟩ ∧
      observable C5store (processRefund C5store 1 none none) = C5store) :=
  ⟨by decide, by decide,
    processRefund_already_refunded_conflict C5store 1 none none
      ⟨1, 1, "TXN-1", 20, "card", "refunded"⟩ (by decide) (by decide)⟩

/-- C6: `processPayment` on an order that already has a transaction is
rejected — the spec's Conflict case, surfaced by the source as HTTP 400
"Payment already processed for this order" — inserts nothing (observable
store unchanged), and when exactly one transaction referenced the order
before the call, exactly one does afterwards. -/
theorem processPayment_duplicate_conflict
    (s : Store) (userId oid : Nat) (pm : String) (ntid : Nat) (tidStr : String) (o : Order)
    (ho : s.orders.find? (fun x => x.id == oid && x.userId == userId) = some o)
    (hex : 0 < (s.transactions.filter (fun t => t.orderId == oid)).length) :
    processPayment s userId oid pm ntid tidStr
      = .error ⟨400, "Payment already processed for this order"⟩ ∧
    observable s ((processPayment s userId oid pm ntid tidStr).map (fun r => r.1)) = s ∧
    ((s.transactions.filter (fun t => t.orderId == oid)).length = 1 →
      ((observable s ((processPayment s userId oid pm ntid tidStr).map (fun r => r.1))).transactions.filter
          (fun t => t.orderId == oid)).length = 1) := by
  unfold processPayment
  rw [ho]
  dsimp only
  rw [if_pos hex]
  exact ⟨rfl, rfl, fun h => h⟩

def C6store : Store :=
  ⟨[⟨1, "A", 10, 3⟩],
   [⟨1, 9, "ORD-1", 20, "processing", demoShip⟩],
   [⟨1, 1, 2, 10⟩],
   [⟨1, 1, "TXN-1", 20, "card", "completed"⟩],
   [⟨1, "pending", "n1"⟩, ⟨1, "processing", "n2"⟩],
   [], []⟩

theorem processPayment_duplicate_conflict_witness :
    C6store.orders.find? (fun x => x.id == 1 && x.userId == 9)
        = some ⟨1, 9, "ORD-1", 20, "processing", demoShip⟩ ∧
    0 < (C6store.transactions.filter (fun t => t.orderId == 1)).length ∧
    (processPayment C6store 9 1 "card" 2 "TXN-2"
        = .error ⟨400, "Payment already processed for this order"⟩ ∧
      observable C6store ((processPayment C6store 9 1 "card" 2 "TXN-2").map (fun r => r.1))
        = C6store ∧
      ((C6store.transactions.filter (fun t => t.orderId == 1)).length = 1 →
        ((observable C6store ((processPayment C6store 9 1 "card" 2 "TXN-2").map
            (fun r => r.1))).transactions.filter (fun t => t.orderId == 1)).length = 1)) :=
  ⟨by decide, by decide,
    processPayment_duplicate_conflict C6store 9 1 "card" 2 "TXN-2"
      ⟨1, 9, "ORD-1", 20, "processing", demoShip⟩ (by decide) (by decide)⟩

def C2store : Store := ⟨[⟨1, "A", 10, 1⟩], [], [], [], [], [], []⟩

def C2after : Store :=
  ⟨[⟨1, "A", 10, -1⟩],
   [⟨1, 9, "ORD-1", 20, "pending", demoShip⟩],
   [⟨1, 1, 2, 10⟩],
   [⟨1, 1, "TXN-1", 20, "card", "completed"⟩],
   [⟨1, "pending", "Order created and payment received"⟩],
   [], []⟩

/-- C2 counterexample: a checkout of quantity 2 against a product whose stock
is 1 succeeds (orderController.js:64-75 decrements with no sufficiency check)
and leaves that product's stock at −1, refuting "stock remains ≥ 0 at all
times" and "a successful checkout never drives any referenced product's stock
below zero". -/
theorem createOrder_drives_stock_negative :
    createOrder C2store 9 [⟨1, 2, 10⟩] demoShip "card" 1 "ORD-1" 1 "TXN-1"
      = .ok (C2after, 1, "ORD-1", "TXN-1") ∧
    stockOf C2store 1 = some 1 ∧
    stockOf C2after 1 = some (-1) := by
  refine ⟨by rfl, by decide, by decide⟩

/-- C2 amended: checkout decrements each product's stock by the total ordered
quantity with no sufficiency re-check, so checkout preserves stock ≥ 0 only
when each product's total ordered quantity is at most its current stock; the
other core operations (status transition, payment, refund) never leave a
nonnegative stock negative. -/
theorem stock_nonneg_amended
    (s : Store)
    (hnn : ∀ p ∈ s.products, 0 ≤ p.stock)
    (hqs : ∀ it ∈ s.orderItems, 0 ≤ it.quantity) :
    (∀ userId items ship pm noid onum ntid tidStr s' oid onum' tid',
        createOrder s userId items ship pm noid onum ntid tidStr
            = .ok (s', oid, onum', tid') →
        (∀ p ∈ s.products, lineQty items p.id ≤ p.stock) →
        ∀ p ∈ s'.products, 0 ≤ p.stock) ∧
    (∀ oid st notes s', updateOrderStatus s oid st notes = .ok s' →
        ∀ p ∈ s'.products, 0 ≤ p.stock) ∧
    (∀ userId oid pm ntid tidStr s' t,
        processPayment s userId oid pm ntid tidStr = .ok (s', t) →
        ∀ p ∈ s'.products, 0 ≤ p.stock) ∧
    (∀ tid amount reason s', processRefund s tid amount reason = .ok s' →
        ∀ p ∈ s'.products, 0 ≤ p.stock) := by
  have hrestock : ∀ oid : Nat, ∀ p0 ∈ s.products,
      0 ≤ p0.stock + itemQty (orderItemsOf s oid) p0.id := by
    intro oid p0 hp0
    have h1 := hnn p0 hp0
    have h2 : 0 ≤ itemQty (orderItemsOf s oid) p0.id := by
      apply itemQty_nonneg
      intro it hit
      exact hqs it (List.mem_filter.mp hit).1
    omega
  refine ⟨?_, ?_, ?_, ?_⟩
  · intro userId items ship pm noid onum ntid tidStr s' oid onum' tid' hok hcov p hp
    obtain ⟨-, -, -, -, -, h6⟩ := createOrder_ok_spec hok
    rw [h6, clearUserCart_products] at hp
    obtain ⟨p0, hp0, rfl⟩ := List.mem_map.mp hp
    have := hcov p0 hp0
    simp only
    omega
  · intro oid st notes s' hok p hp
    obtain ⟨-, h2⟩ := updateOrderStatus_ok_spec hok
    rw [h2, updateOrderStatusBody_products] at hp
    split at hp
    · obtain ⟨p0, hp0, rfl⟩ := List.mem_map.mp hp
      have := hrestock oid p0 hp0
      simpa using this
    · exact hnn p hp
  · intro userId oid pm ntid tidStr s' t hok p hp
    obtain ⟨o, -, -, -, h4⟩ := processPayment_ok_spec hok
    rw [h4] at hp
    exact hnn p hp
  · intro tid amount reason s' hok p hp
    obtain ⟨t, -, -, h3⟩ := processRefund_ok_spec hok
    rw [h3, cancelRestock_eq] at hp
    obtain ⟨p0, hp0, rfl⟩ := List.mem_map.mp hp
    have := hrestock t.orderId p0 hp0
    simpa using this

def C9store : Store :=
  ⟨[⟨1, "A", 10, 3⟩],
   [⟨1, 9, "ORD-1", 20, "pending", demoShip⟩],
   [⟨1, 1, 2, 10⟩],
   [⟨1, 1, "TXN-1", 20, "card", "completed"⟩],
   [⟨1, "pending", "Order created and payment received"⟩],
   [], []⟩

def C2wafter : Store :=
  ⟨[⟨1, "A", 10, 5⟩],
   [⟨1, 9, "ORD-1", 20, "cancelled", demoShip⟩],
   [⟨1, 1, 2, 10⟩],
   [⟨1, 1, "TXN-1", 20, "card", "completed"⟩],
   [⟨1, "pending", "Order created and payment received"⟩,
    ⟨1, "cancelled", "Status updated to cancelled"⟩],
   [], []⟩

theorem stock_nonneg_amended_witness :
    (∀ p ∈ C9store.products, 0 ≤ p.stock) ∧
    (∀ it ∈ C9store.orderItems, 0 ≤ it.quantity) ∧
    updateOrderStatus C9store 1 "cancelled" none = .ok C2wafter ∧
    (∀ p ∈ C2wafter.products, 0 ≤ p.stock) :=
  ⟨by decide, by decide, by rfl,
    (stock_nonneg_amended C9store (by decide) (by decide)).2.1 1 "cancelled" none
      C2wafter (by rfl)⟩

def C7store : Store :=
  ⟨[⟨1, "A", 10, 3⟩],
   [⟨1, 9, "ORD-1", 20, "processing", demoShip⟩],
   [⟨1, 1, 2, 10⟩],
   [⟨1, 1, "TXN-1", 20, "card", "completed"⟩],
   [⟨1, "pending", "n1"⟩, ⟨1, "processing", "n2"⟩],
   [], []⟩

def C7after : Store :=
  ⟨[⟨1, "A", 10, 5⟩],
   [⟨1, 9, "ORD-1", 20, "refunded", demoShip⟩],
   [⟨1, 1, 2, 10⟩],
   [⟨1, 1, "TXN-1", 20, "card", "refunded"⟩],
   [⟨1, "pending", "n1"⟩, ⟨1, "processing", "n2"⟩,
    ⟨1, "refunded", "Refund processed: No reason provided. Amount: Full amount"⟩],
   [], []⟩

/-- C7: the post-state the refund controller writes for a `"completed"`
transaction puts `"refunded"` into `orders.status` and
`order_status_history.status`, but `"refunded"` is not a member of either
column's declared `ENUM` vocabulary (schema.sql:65,107): the write set of
`processRefund` violates the schema that starts from a valid store, so under
MySQL's default strict mode the `UPDATE orders` statement is rejected and the
whole refund rolls back — the order's status never becomes `"refunded"`. -/
theorem processRefund_refunded_outside_schema_enums :
    storeSchemaValid C7store ∧
    processRefund C7store 1 none none = .ok C7after ∧
    (∃ o ∈ C7after.orders, o.id = 1 ∧ o.status = "refunded") ∧
    (∃ h ∈ C7after.statusHistory, h.status = "refunded") ∧
    "refunded" ∉ ordersStatusEnum ∧
    "refunded" ∉ historyStatusEnum ∧
    "refunded" ∈ txnStatusEnum ∧
    ¬ storeSchemaValid C7after := by
  refine ⟨by decide, by rfl, by decide, by decide, by decide, by decide, by decide, by decide⟩

theorem stockIn_map_sub (ps : List Product) (x : Nat) (items : List OrderLine) :
    stockIn (ps.map (fun p => { p with stock := p.stock - lineQty items p.id })) x
      = (stockIn ps x).map (fun v => v - lineQty items x) :=
  stockIn_map_adjust (fun i v => v - lineQty items i) ps x

theorem stockIn_map_add (ps : List Product) (x : Nat) (its : List OrderItem) :
    stockIn (ps.map (fun p => { p with stock := p.stock + itemQty its p.id })) x
      = (stockIn ps x).map (fun v => v + itemQty its x) :=
  stockIn_map_adjust (fun i v => v + itemQty its i) ps x

/-- C8: a checkout followed by a status transition of the same order to
`"cancelled"` has net zero effect on every product's stock: the cancellation
loop (orderController.js:259-271) adds back per order item exactly the
quantity the checkout loop (orderController.js:64-75) subtracted per line. -/
theorem checkout_then_cancel_net_zero_stock
    (s : Store) (userId : Nat) (items : List OrderLine) (ship : ShippingInfo)
    (pm : String) (noid : Nat) (onum : String) (ntid : Nat) (tidStr : String)
    (notes : Option String) (s1 s2 : Store) (oid : Nat) (onum' tid' : String)
    (hfresh : ∀ it ∈ s.orderItems, it.orderId ≠ noid)
    (hok : createOrder s userId items ship pm noid onum ntid tidStr
        = .ok (s1, oid, onum', tid'))
    (hcancel : updateOrderStatus s1 oid "cancelled" notes = .ok s2) :
    ∀ pid, stockOf s2 pid = stockOf s pid := by
  obtain ⟨-, h2, -, -, -, h6⟩ := createOrder_ok_spec hok
  subst h2
  obtain ⟨-, hb⟩ := updateOrderStatus_ok_spec hcancel
  intro pid
  have hprod2 : s2.products = s1.products.map
      (fun p => { p with stock := p.stock + itemQty (orderItemsOf s1 oid) p.id }) := by
    rw [hb, updateOrderStatusBody_products, if_pos rfl]
  have hprod1 : s1.products = s.products.map
      (fun p => { p with stock := p.stock - lineQty items p.id }) := by
    rw [h6, clearUserCart_products]
  have hitems1 : orderItemsOf s1 oid
      = items.map (fun it => (⟨oid, it.id, it.quantity, it.price⟩ : OrderItem)) := by
    unfold orderItemsOf
    rw [h6, clearUserCart_orderItems]
    have hnil : (s.orderItems.filter (fun it => it.orderId == oid)) = [] := by
      rw [List.filter_eq_nil_iff]
      intro it hit
      simpa using hfresh it hit
    have hall : ((items.map (fun it =>
        (⟨oid, it.id, it.quantity, it.price⟩ : OrderItem))).filter
          (fun it => it.orderId == oid))
        = items.map (fun it => (⟨oid, it.id, it.quantity, it.price⟩ : OrderItem)) := by
      rw [List.filter_eq_self]
      intro it hit
      obtain ⟨l, -, rfl⟩ := List.mem_map.mp hit
      simp
    rw [List.filter_append, hnil, hall, List.nil_append]
  rw [stockOf, stockOf, hprod2, hitems1, hprod1, stockIn_map_add, stockIn_map_sub,
    Option.map_map, itemQty_map_checkout]
  cases stockIn s.products pid with
  | none => rfl
  | some v => simp [Int.sub_add_cancel]

def C8after : Store :=
  ⟨[⟨1, "A", 10, 5⟩],
   [⟨1, 7, "ORD-1", 20, "cancelled", demoShip⟩],
   [⟨1, 1, 2, 10⟩],
   [⟨1, 1, "TXN-1", 20, "card", "completed"⟩],
   [⟨1, "pending", "Order created and payment received"⟩,
    ⟨1, "cancelled", "Status updated to cancelled"⟩],
   [], []⟩

theorem checkout_then_cancel_net_zero_stock_witness :
    (∀ it ∈ C4store.orderItems, it.orderId ≠ 1) ∧
    createOrder C4store 7 [⟨1, 2, 10⟩] demoShip "card" 1 "ORD-1" 1 "TXN-1"
      = .ok (C4after, 1, "ORD-1", "TXN-1") ∧
    updateOrderStatus C4after 1 "cancelled" none = .ok C8after ∧
    stockOf C8after 1 = stockOf C4store 1 :=
  ⟨by decide, by rfl, by rfl,
    checkout_then_cancel_net_zero_stock C4store 7 [⟨1, 2, 10⟩] demoShip "card" 1 "ORD-1" 1
      "TXN-1" none C4after C8after 1 "ORD-1" "TXN-1" (by decide) (by rfl) (by rfl) 1⟩

/-- C9: each successful core operation keeps the order's own `status` column
in agreement with the status of the most recent `order_status_history` row:
checkout creates the order with the schema default `"pending"` and appends a
`"pending"` row; the other three operations update the status column and
append a row with the same status inside the same call. -/
theorem core_ops_preserve_status_agreement
    (s : Store) (hs : statusConsistent s) :
    (∀ userId items ship pm noid onum ntid tidStr s' oid onum' tid',
        (∀ o ∈ s.orders, o.id ≠ noid) →
        createOrder s userId items ship pm noid onum ntid tidStr
            = .ok (s', oid, onum', tid') →
        statusConsistent s') ∧
    (∀ oid st notes s', updateOrderStatus s oid st notes = .ok s' →
        statusConsistent s') ∧
    (∀ userId oid pm ntid tidStr s' t,
        processPayment s userId oid pm ntid tidStr = .ok (s', t) →
        statusConsistent s') ∧
    (∀ tid amount reason s', processRefund s tid amount reason = .ok s' →
        statusConsistent s') := by
  refine ⟨?_, ?_, ?_, ?_⟩
  · intro userId items ship pm noid onum ntid tidStr s' oid onum' tid' hnew hok
    obtain ⟨-, -, -, -, -, h6⟩ := createOrder_ok_spec hok
    rw [h6]
    refine statusConsistent_of_fields (clearUserCart_orders _ _)
      (clearUserCart_statusHistory _ _) ?_
    intro o ho
    simp only [List.mem_append, List.mem_singleton] at ho
    rcases ho with ho | rfl
    · have hne : o.id ≠ noid := hnew o ho
      unfold lastStatus historyFor
      simp only [List.filter_append]
      have hnilf : (List.filter (fun h => h.orderId == o.id)
          [(⟨noid, "pending", "Order created and payment received"⟩ : HistoryEntry)]) = [] := by
        simp [Ne.symm hne]
      rw [hnilf, List.append_nil]
      exact hs o ho
    · unfold lastStatus historyFor
      simp [List.filter_append, List.getLast?_concat]
  · intro oid st notes s' hok
    obtain ⟨-, hb⟩ := updateOrderStatus_ok_spec hok
    rw [hb]
    refine statusConsistent_of_fields ?_ ?_
      (statusConsistent_set_append oid st (jsOrS notes ("Status updated to " ++ st)) hs)
    · rw [updateOrderStatusBody_orders]
      rfl
    · rw [updateOrderStatusBody_statusHistory]
      rfl
  · intro userId oid pm ntid tidStr s' t hok
    obtain ⟨o, -, -, -, h4⟩ := processPayment_ok_spec hok
    rw [h4]
    exact statusConsistent_set_append oid "processing"
      "Payment received and order is being processed"
      (statusConsistent_of_fields rfl rfl hs)
  · intro tid amount reason s' hok
    obtain ⟨t, -, -, h3⟩ := processRefund_ok_spec hok
    rw [h3]
    refine statusConsistent_of_fields ?_ ?_
      (statusConsistent_set_append t.orderId "refunded"
        ("Refund processed: " ++ jsOrS reason "No reason provided" ++
          ". Amount: " ++ amountText amount)
        (statusConsistent_of_fields rfl rfl hs))
    · rw [cancelRestock_eq]; rfl
    · rw [cancelRestock_eq]; rfl

def C9after : Store :=
  ⟨[⟨1, "A", 10, 3⟩],
   [⟨1, 9, "ORD-1", 20, "shipped", demoShip⟩],
   [⟨1, 1, 2, 10⟩],
   [⟨1, 1, "TXN-1", 20, "card", "completed"⟩],
   [⟨1, "pending", "Order created and payment received"⟩,
    ⟨1, "shipped", "Status updated to shipped"⟩],
   [], []⟩

theorem core_ops_preserve_status_agreement_witness :
    statusConsistent C9store ∧
    updateOrderStatus C9store 1 "shipped" none = .ok C9after ∧
    statusConsistent C9after :=
  ⟨by decide, by rfl,
    (core_ops_preserve_status_agreement C9store (by decide)).2.1 1 "shipped" none
      C9after (by rfl)⟩

/-- C10: `addToCart` rejects — leaving the observable store, hence the cart,
unchanged — every request whose quantity exceeds the product's current stock
(part_000:97-102), and, when the product is already in the caller's cart,
every request whose quantity plus the existing cart quantity exceeds the
stock (part_000:126-147); requests with quantity < 1 are rejected by the
input validation before the stock is even consulted. -/
theorem addToCart_insufficient_stock_rejected
    (s : Store) (userId productId : Nat) (quantity : Int) (ncid niid : Nat) (p : Product)
    (hp : findProduct s productId = some p)
    (hpid : productId ≠ 0) :
    (quantity < 1 →
      addToCart s userId productId quantity ncid niid
        = .error ⟨400, "Product ID and valid quantity are required"⟩ ∧
      observable s (addToCart s userId productId quantity ncid niid) = s) ∧
    (1 ≤ quantity → p.stock < quantity →
      addToCart s userId productId quantity ncid niid
        = .error ⟨400, "Only " ++ toString p.stock ++ " items available in stock"⟩ ∧
      observable s (addToCart s userId productId quantity ncid niid) = s) ∧
    (∀ c ci, 1 ≤ quantity → quantity ≤ p.stock →
      s.carts.find? (fun x => x.userId == userId) = some c →
      s.cartItems.find? (fun x => x.cartId == c.id && x.productId == productId) = some ci →
      p.stock < ci.quantity + quantity →
      addToCart s userId productId quantity ncid niid
        = .error ⟨400, "Only " ++ toString (p.stock - ci.quantity) ++
            " more items available in stock"⟩ ∧
      observable s (addToCart s userId productId quantity ncid niid) = s) := by
  refine ⟨?_, ?_, ?_⟩
  · intro hq
    unfold addToCart
    rw [if_pos (by simp [hq])]
    exact ⟨rfl, rfl⟩
  · intro hq hstock
    unfold addToCart
    rw [if_neg (by simp [hpid]; omega), hp]
    dsimp only
    rw [if_pos hstock]
    exact ⟨rfl, rfl⟩
  · intro c ci hq hle hc hci hover
    unfold addToCart
    rw [if_neg (by simp [hpid]; omega), hp]
    dsimp only
    rw [if_neg (by omega), hc]
    dsimp only
    rw [hci]
    dsimp only
    rw [if_pos hover]
    exact ⟨rfl, rfl⟩

def C10store : Store :=
  ⟨[⟨1, "A", 10, 5⟩], [], [], [], [], [⟨1, 7⟩], [⟨1, 1, 1, 4⟩]⟩

theorem addToCart_insufficient_stock_rejected_witness :
    findProduct C10store 1 = some ⟨1, "A", 10, 5⟩ ∧
    ((1 : Nat) ≠ 0) ∧
    (addToCart C10store 7 1 2 9 9
        = .error ⟨400, "Only " ++ toString ((5 : Int) - 4) ++
            " more items available in stock"⟩ ∧
      observable C10store (addToCart C10store 7 1 2 9 9) = C10store) :=
  ⟨by decide, by decide,
    (addToCart_insufficient_stock_rejected C10store 7 1 2 9 9 ⟨1, "A", 10, 5⟩
        (by decide) (by decide)).2.2 ⟨1, 7⟩ ⟨1, 1, 1, 4⟩
      (by decide) (by decide) (by decide) (by decide) (by decide)⟩

theorem restockStates_getLastD (its : List OrderItem) :
    ∀ s : Store, (restockStates its s).getLastD s = cancelRestock its s := by
  induction its with
  | nil => intro s; rfl
  | cons it rest ih =>
    intro s
    rw [restockStates, List.getLastD_cons, ih]
    rfl

/-- The committed-write-state sequence ends, when no statement fails, in
exactly the store the success path of `updateOrderStatus` returns: the
sequence is a faithful statement-by-statement refinement of the controller. -/
theorem updateOrderStatusWriteStates_last (s : Store) (oid : Nat) (st : String)
    (notes : Option String) (s' : Store)
    (h : updateOrderStatus s oid st notes = .ok s') :
    (updateOrderStatusWriteStates s oid st notes).getLastD s = s' := by
  obtain ⟨-, hb⟩ := updateOrderStatus_ok_spec h
  rw [hb]
  unfold updateOrderStatusWriteStates updateOrderStatusBody
  split
  · rw [List.cons_append, List.cons_append, List.nil_append,
      List.getLastD_cons, List.getLastD_cons, restockStates_getLastD]
  · rfl

/-- C1: `updateOrderStatus` is not atomic.  The store in which the order's
status is already updated but no history row has been appended is one of the
durable intermediate states of the call (the connection autocommits because
the controller never calls `beginTransaction`, so `rollback()` undoes
nothing); it differs from the initial store and from the success result, so a
failure of the history insert leaves an observable partial commit. -/
theorem updateOrderStatus_midcall_commit_observable :
    setOrderStatus C9store 1 "shipped" ∈ updateOrderStatusWriteStates C9store 1 "shipped" none ∧
    setOrderStatus C9store 1 "shipped" ≠ C9store ∧
    updateOrderStatus C9store 1 "shipped" none ≠ .ok (setOrderStatus C9store 1 "shipped") ∧
    (∃ o ∈ (setOrderStatus C9store 1 "shipped").orders, o.id = 1 ∧ o.status = "shipped") ∧
    historyFor (setOrderStatus C9store 1 "shipped") 1 = historyFor C9store 1 := by
  refine ⟨by decide, by decide, by decide, by decide, by decide⟩

end Viwisteria
